import Mathlib

/-!
Verification of the embla-carousel vanilla facade (`src/vanilla/index.ts`)
against its natural-language specification.

The facade file is the only source present; the engine sub-components
(Counter/Index, ScrollBody, Animation, DragHandler, SlideLooper, Engine
construction) are referenced from it but their code is not in the source
tree, so they are modelled from the specification text, as marked on each
definition.  Positions, sizes and velocities are embedded as rationals;
indexes as integers.
-/

namespace Embla

/-! ### Counter (Index) -/

/-- Modelled from the spec: the Counter/Index component is not in the source
tree.  "Index: an integer cursor ranging over [0, scrollSnapCount);
supports wrap-around when looping is enabled, clamped when not …
in loop mode this wraps using modulo arithmetic over snap count (negative
results wrap to the high end); in non-loop mode results are clamped to
[0, count-1]".  `normalizeIndex` maps a raw integer into the valid range. -/
def normalizeIndex (count : ℕ) (loop : Bool) (v : ℤ) : ℤ :=
  if loop then v % (count : ℤ) else min ((count : ℤ) - 1) (max 0 v)

/-- Modelled from the spec: "Counter (Index) — a bounded or wrapping integer
cursor over snap points, with clone/add/set operations." -/
structure Counter where
  count : ℕ
  loop : Bool
  value : ℤ
  deriving DecidableEq, Repr

/-- Modelled from the spec: `add(n)` moves the cursor by `n` positions,
wrapping (loop) or clamping (non-loop). -/
def Counter.add (c : Counter) (n : ℤ) : Counter :=
  { c with value := normalizeIndex c.count c.loop (c.value + n) }

/-- Modelled from the spec: `set(n)` places the cursor at `n`, normalized
the same way as `add`. -/
def Counter.set (c : Counter) (n : ℤ) : Counter :=
  { c with value := normalizeIndex c.count c.loop n }

/-- Modelled from the spec: `get()` reads the cursor. -/
def Counter.get (c : Counter) : ℤ := c.value

/-- Modelled from the spec: `clone()` yields an independent copy for
speculative arithmetic.  Counters are immutable values here, so a clone is
the value itself. -/
def Counter.clone (c : Counter) : Counter := c

/-! ### ScrollBody and Animation -/

/-- Modelled from the spec: the ScrollBody component is not in the source
tree.  The spec gives the algorithm but no numeric defaults, so the base
(default) mass is fixed at a representative value. -/
def baseMass : ℚ := 10

/-- Modelled from the spec: base friction coefficient of the default
profile (representative value; the spec gives no numeric defaults). -/
def baseFriction : ℚ := 1 / 2

/-- Modelled from the spec: "The loop in Animation repeats until
|velocity| < settleThreshold".  Representative small positive value. -/
def settleThreshold : ℚ := 1 / 100

/-- State shared between ScrollBody and Animation: "tracks position
(location), target (target), velocity/mass/friction state". -/
structure SBState where
  location : ℚ
  target : ℚ
  velocity : ℚ
  deriving DecidableEq, Repr

/-- Modelled from the spec: ScrollBody's one-frame integrator.
"velocity accumulates a spring-like force proportional to
(target - location) / mass, then is scaled by (1 - friction); location
advances by velocity." (base profile). -/
def seek (s : SBState) : SBState :=
  let v := (s.velocity + (s.target - s.location) / baseMass) * (1 - baseFriction)
  { s with velocity := v, location := s.location + v }

/-- Remaining distance to the target. -/
def dist (s : SBState) : ℚ := s.target - s.location

/-- Modelled from the spec: the Animation frame loop.  "each tick calls
ScrollBody.seek … checks convergence, and re-schedules itself unless
converged"; "repeats until |velocity| < settleThreshold (convergence), at
which point location is snapped exactly to target and the loop stops."
Fuel bounds the number of ticks; `none` means the fuel ran out before the
loop converged. -/
def animate : ℕ → SBState → Option SBState
  | 0, _ => none
  | fuel + 1, s =>
    let s' := seek s
    if |s'.velocity| < settleThreshold then some { s' with location := s'.target }
    else animate fuel s'

/-- Invariant of the base-profile simulation when started from rest: the
velocity points toward the target and its magnitude never exceeds half the
remaining distance (overdamped regime of the default mass/friction
profile). -/
def SBInv (s : SBState) : Prop :=
  (0 ≤ dist s ∧ 0 ≤ s.velocity ∧ 2 * s.velocity ≤ dist s) ∨
  (dist s ≤ 0 ∧ s.velocity ≤ 0 ∧ dist s ≤ 2 * s.velocity)

/-! ### DragHandler -/

/-- Modelled from the spec: the click/drag classification threshold
("a small threshold"; representative positive value, the spec gives no
numeric default). -/
def dragThreshold : ℚ := 4

/-- Modelled from the spec: DragHandler's transient per-gesture record
"(start position, start time, accumulated delta, pointer identity) —
created on pointer-down, destroyed on pointer-up/cancel", plus the
click-suppression flag read by `clickAllowed()`. -/
structure DragState where
  startPos : ℚ
  curPos : ℚ
  dragging : Bool
  exceeded : Bool
  allowClick : Bool
  deriving DecidableEq, Repr

/-- Modelled from the spec: "pointerDown: records start position/time,
cancels any in-flight animation …, marks drag-active." -/
def pointerDown (p : ℚ) : DragState :=
  { startPos := p, curPos := p, dragging := true, exceeded := false, allowClick := true }

/-- Modelled from the spec: "pointerMove: computes delta from start, applies
it directly to Target"; a displacement that reaches the click threshold is
latched so the gesture counts as a drag even if it later returns. -/
def pointerMove (st : DragState) (p : ℚ) : DragState :=
  { st with curPos := p
            exceeded := st.exceeded || decide (dragThreshold ≤ |p - st.startPos|) }

/-- Modelled from the spec: "pointerUp: … if displacement is below threshold,
this is a click (no target change; clickAllowed() returns true …). A drag
always sets clickAllowed() false for that gesture's subsequent click event." -/
def pointerUp (st : DragState) : DragState :=
  { st with dragging := false, allowClick := !st.exceeded }

/-- The facade's clickAllowed() delegates to the drag handler
(src lines 210-212). -/
def clickAllowed (st : DragState) : Bool := st.allowClick

/-- A complete pointer gesture: down at `start`, a move through each
position in `moves`, then up. -/
def runGesture (start : ℚ) (moves : List ℚ) : DragState :=
  pointerUp (moves.foldl pointerMove (pointerDown start))

/-! ### SlideLooper feasibility -/

/-- Modelled from the spec: SlideLooper.canLoop — "looping requires that
total slide content size is at least as large as the viewport plus one
slide, otherwise wrapping artifacts would be visible"; "one slide" is taken
as the first slide's size (all slides share one size in the specified
property). -/
def canLoop (slideSizes : List ℚ) (viewport : ℚ) : Bool :=
  decide (viewport + slideSizes.headD 0 ≤ slideSizes.sum)

/-! ### Options and DOM surroundings -/

/-- The recognized options (spec §6) that the verified claims depend on. -/
structure EmblaOptions where
  loop : Bool
  startIndex : ℤ
  draggable : Bool
  deriving DecidableEq, Repr

/-- Default options (loop off, start at snap 0). -/
def defaultOptions : EmblaOptions :=
  { loop := false, startIndex := 0, draggable := true }

/-- A partial options object: absent fields do not override on merge,
mirroring Object.assign with a plain JS object. -/
structure PartialOptions where
  loop : Option Bool := none
  startIndex : Option ℤ := none
  draggable : Option Bool := none
  deriving DecidableEq, Repr

/-- Object.assign(options, partialOptions) (src line 67): fields present in
the partial object win. -/
def mergeOptions (o : EmblaOptions) (p : PartialOptions) : EmblaOptions :=
  { loop := p.loop.getD o.loop
    startIndex := p.startIndex.getD o.startIndex
    draggable := p.draggable.getD o.draggable }

/-- The DOM surroundings the facade reads: whether the root node exists,
whether the container selector matches a descendant of it, the slide sizes
(the container's children measured along the axis), and the root's measured
size. -/
structure DomWorld where
  hasRoot : Bool
  hasContainer : Bool
  slideSizes : List ℚ
  viewport : ℚ
  deriving DecidableEq, Repr

/-- storeElements (src lines 53-63): throws "Missing root node" when the
root is absent, then "Missing container node" when the container selector
matches nothing; otherwise yields the container's children as the slides. -/
def storeElements (w : DomWorld) : Except String (List ℚ) :=
  if !w.hasRoot then .error "Missing root node"
  else if !w.hasContainer then .error "Missing container node"
  else .ok w.slideSizes

/-! ### Engine -/

/-- Modelled from the spec: "ScrollSnaps: an ordered sequence of scalar
target positions, one per logical slide group, computed once per
activation/re-init from container and slide geometry" — each snap is the
negated cumulative size of the slides before it. -/
def scrollSnapsOf (slideSizes : List ℚ) : List ℚ :=
  (List.range slideSizes.length).map fun i => -((slideSizes.take i).sum)

/-- The engine state the facade consumes: index cursor, snap list, shared
location/target scalars, and the geometry it was built from. -/
structure Engine where
  index : Counter
  scrollSnaps : List ℚ
  location : ℚ
  target : ℚ
  slideSizes : List ℚ
  viewport : ℚ
  deriving DecidableEq, Repr

/-- Modelled from the spec: Engine construction (called at src line 68) —
"a pure constructor: … it computes ScrollSnaps from current geometry,
builds all sub-components wired to shared Location/Target state, and sets
initial Index from options.startIndex". -/
def mkEngine (slideSizes : List ℚ) (viewport : ℚ) (opts : EmblaOptions) : Engine :=
  let count := slideSizes.length
  let index : Counter := ⟨count, opts.loop, normalizeIndex count opts.loop opts.startIndex⟩
  let snaps := scrollSnapsOf slideSizes
  let start := snaps.getD index.value.toNat 0
  { index := index, scrollSnaps := snaps, location := start, target := start,
    slideSizes := slideSizes, viewport := viewport }

/-! ### Facade lifecycle -/

/-- The named lifecycle events the facade emits (spec §6). -/
inductive EmblaEvent
  | init | reInit | destroy | resize | select | pointerDown | pointerUp
  deriving DecidableEq, Repr

/-- The facade's closure state: the engine, the `activated` flag, the
persistent merged options, the last measured root size, the stored slides,
bookkeeping for the attached listeners, and the log of emitted events. -/
structure CarouselState where
  engine : Engine
  activated : Bool
  options : EmblaOptions
  rootElementSize : ℚ
  slides : List ℚ
  resizeListenerOn : Bool
  dragEventsOn : Bool
  eventLog : List EmblaEvent
  deriving DecidableEq, Repr

/-- deActivate (src lines 120-133): removes drag/focus/resize listeners,
stops the animation and clears applied transforms; it emits nothing and
does not touch `activated`. -/
def deActivate (st : CarouselState) : CarouselState :=
  { st with dragEventsOn := false, resizeListenerOn := false }

/-- activate (src lines 65-104): stores the elements, merges the partial
options into the persistent options, rebuilds the engine, attaches the
resize listener, and on an infeasible loop request deactivates and
re-activates itself with loop disabled (lines 73-77); finally wires
dragging and, on the first activation only, emits 'init' and sets
`activated`.  The fuel bounds the single possible retry; the src recursion
cannot recurse again because the retry passes loop := false. -/
def activateAux : ℕ → DomWorld → CarouselState → PartialOptions → Except String CarouselState
  | 0, _, _, _ => .error "out of fuel"
  | fuel + 1, w, st0, partialOpts =>
    match storeElements w with
    | .error e => .error e
    | .ok slides =>
      let options := mergeOptions st0.options partialOpts
      let engine := mkEngine slides w.viewport options
      let st : CarouselState :=
        { st0 with slides := slides, options := options, engine := engine,
                   rootElementSize := w.viewport, resizeListenerOn := true }
      if options.loop && !(canLoop slides w.viewport) then
        activateAux fuel w (deActivate st) { loop := some false }
      else
        let st := { st with dragEventsOn := options.draggable && !slides.isEmpty }
        if !st.activated then
          .ok { st with eventLog := st.eventLog ++ [.init], activated := true }
        else .ok st

/-- activate with enough fuel for the loop-infeasibility retry. -/
def activate (w : DomWorld) (st : CarouselState) (p : PartialOptions) :
    Except String CarouselState :=
  activateAux 2 w st p

/-- selectedScrollSnap (src lines 202-204): reads the engine's index. -/
def selectedScrollSnap (st : CarouselState) : ℤ := st.engine.index.get

/-- reActivate / reInit (src lines 135-142): a no-op unless activated;
otherwise captures the selected snap as startIndex (overridable by the
caller's partial options), deactivates, re-activates, and emits 'reInit'. -/
def reActivate (w : DomWorld) (st : CarouselState) (p : PartialOptions) :
    Except String CarouselState :=
  if !st.activated then .ok st
  else
    let startIndex := selectedScrollSnap st
    let newOptions : PartialOptions := { p with startIndex := some (p.startIndex.getD startIndex) }
    match activate w (deActivate st) newOptions with
    | .error e => .error e
    | .ok st' => .ok { st' with eventLog := st'.eventLog ++ [.reInit] }

/-- destroy (src lines 144-149): a no-op unless activated; otherwise
deactivates, clears `activated` and emits 'destroy'. -/
def destroy (st : CarouselState) : CarouselState :=
  if !st.activated then st
  else
    let st' := deActivate st
    { st' with activated := false, eventLog := st'.eventLog ++ [.destroy] }

/-- resize (src lines 151-156): a no-op unless activated; otherwise
re-activates when the measured root size changed, then emits 'resize'. -/
def resize (w : DomWorld) (st : CarouselState) : Except String CarouselState :=
  if !st.activated then .ok st
  else
    let newRootElementSize := w.viewport
    let step : Except String CarouselState :=
      if st.rootElementSize ≠ newRootElementSize then reActivate w st {} else .ok st
    match step with
    | .error e => .error e
    | .ok st' => .ok { st' with eventLog := st'.eventLog ++ [.resize] }

/-! ### Facade scroll queries -/

/-- engine.slideIndexes: one index per slide. -/
def slideIndexes (e : Engine) : List ℕ := List.range e.slideSizes.length

/-- JavaScript Array.prototype.indexOf on a list of indexes: position of the
first occurrence, or -1 when absent (used at src line 166). -/
def jsIndexOf : List ℕ → ℕ → ℤ
  | [], _ => -1
  | a :: as, x =>
    if a = x then 0
    else
      let r := jsIndexOf as x
      if r = -1 then -1 else r + 1

/-- slidesNotInView (src lines 164-167): filters engine.slideIndexes down to
those absent from slidesInView's result.  The engine's slidesInView check is
not in the source tree, so its result is abstracted as `inView`. -/
def slidesNotInView (idxs : List ℕ) (inView : List ℕ) : List ℕ :=
  idxs.filter fun i => jsIndexOf inView i == -1

/-- Modelled from the spec: engine.scrollTo.index (called at src line 171) —
"scrollTo(index, direction) sets Target to the snap position for that
index"; the Index cursor is set to that index (spec §3: "Index: …
Set by scrollTo"); the direction argument only picks the interpolation path
around a loop and does not affect the settled index or target. -/
def engineScrollToIndex (e : Engine) (n : ℤ) : Engine :=
  let idx := e.index.set n
  { e with index := idx, target := e.scrollSnaps.getD idx.value.toNat 0 }

/-- scrollTo (src lines 169-172): resets the base mass/speed profile and,
when activated, forwards to engine.scrollTo.index. -/
def scrollTo (st : CarouselState) (n : ℤ) : CarouselState :=
  if st.activated then { st with engine := engineScrollToIndex st.engine n } else st

/-- scrollNext (src lines 174-177): scrolls to the clone-add-1 index. -/
def scrollNext (st : CarouselState) : CarouselState :=
  scrollTo st ((st.engine.index.clone.add 1).get)

/-- scrollPrev (src lines 179-182): scrolls to the clone-add-(-1) index. -/
def scrollPrev (st : CarouselState) : CarouselState :=
  scrollTo st ((st.engine.index.clone.add (-1)).get)

/-- canScrollNext (src lines 184-187): true when the clone-add-1 index
differs from the selected one. -/
def canScrollNext (st : CarouselState) : Bool :=
  decide ((st.engine.index.clone.add 1).get ≠ selectedScrollSnap st)

/-- canScrollPrev (src lines 189-192): true when the clone-add-(-1) index
differs from the selected one. -/
def canScrollPrev (st : CarouselState) : Bool :=
  decide ((st.engine.index.clone.add (-1)).get ≠ selectedScrollSnap st)

/-- A concrete activated carousel over three unit slides, non-loop, with the
last snap selected (instantiates the scrollNext boundary theorem). -/
def stC3 : CarouselState :=
  { engine := { index := ⟨3, false, 2⟩, scrollSnaps := [0, -1, -2], location := -2,
                target := -2, slideSizes := [1, 1, 1], viewport := 1 }
    activated := true
    options := { loop := false, startIndex := 2, draggable := true }
    rootElementSize := 1
    slides := [1, 1, 1]
    resizeListenerOn := true
    dragEventsOn := true
    eventLog := [EmblaEvent.init] }

/-- A concrete not-yet-activated carousel state (instantiates the
missing-DOM activation theorem). -/
def stC7 : CarouselState :=
  { engine := mkEngine [] 1 defaultOptions
    activated := false
    options := defaultOptions
    rootElementSize := 0
    slides := []
    resizeListenerOn := false
    dragEventsOn := false
    eventLog := [] }

/-- A concrete engine over four unit slides (instantiates the
slidesNotInView partition theorem). -/
def engC9 : Engine := mkEngine [1, 1, 1, 1] 2 defaultOptions

/-- A concrete activated carousel over two unit slides (instantiates the
destroy gating theorem). -/
def stC10 : CarouselState :=
  { engine := mkEngine [1, 1] 1 defaultOptions
    activated := true
    options := defaultOptions
    rootElementSize := 1
    slides := [1, 1]
    resizeListenerOn := true
    dragEventsOn := true
    eventLog := [EmblaEvent.init] }

/-- A concrete not-yet-activated carousel state (instantiates the
infeasible-loop fallback theorem). -/
def stC2 : CarouselState :=
  { engine := mkEngine [] 1 defaultOptions
    activated := false
    options := defaultOptions
    rootElementSize := 0
    slides := []
    resizeListenerOn := false
    dragEventsOn := false
    eventLog := [] }

/-- A concrete activated loop carousel over five unit slides with index 3
selected (instantiates the reInit index-preservation theorem). -/
def stC8 : CarouselState :=
  { engine := mkEngine [1, 1, 1, 1, 1] 2 { loop := true, startIndex := 3, draggable := true }
    activated := true
    options := { loop := true, startIndex := 3, draggable := true }
    rootElementSize := 2
    slides := [1, 1, 1, 1, 1]
    resizeListenerOn := true
    dragEventsOn := true
    eventLog := [EmblaEvent.init] }

/-! ## Theorems -/

/-- A raw index already inside `[0, count)` is left unchanged by
normalization, in both loop and non-loop mode. -/
lemma normalizeIndex_eq_self {count : ℕ} {loop : Bool} {v : ℤ}
    (h0 : 0 ≤ v) (h1 : v < (count : ℤ)) : normalizeIndex count loop v = v := by
  unfold normalizeIndex
  cases loop with
  | false => simp only [Bool.false_eq_true, if_false]; omega
  | true => simp only [if_true]; exact Int.emod_eq_of_lt h0 h1

/-- C5: in loop mode, `clone().add(n).add(-n).get()` returns the original
index for every in-range index state and every integer offset, the
wrap-around being modulo the snap count; and with count 5 at index 4,
`add(1)` wraps to 0. -/
theorem counter_add_roundtrip (c : Counter) (n : ℤ) (hl : c.loop = true)
    (h0 : 0 ≤ c.value) (h1 : c.value < (c.count : ℤ)) :
    ((c.clone.add n).add (-n)).get = c.get ∧
    ((Counter.mk 5 true 4).add 1).get = 0 := by
  constructor
  · simp only [Counter.clone, Counter.add, Counter.get, normalizeIndex, hl, if_true]
    rw [Int.emod_add_emod, add_neg_cancel_right]
    exact Int.emod_eq_of_lt h0 h1
  · decide

/-- Witness for `counter_add_roundtrip`: count 5, index 3, offset 7. -/
theorem counter_add_roundtrip_witness :
    (((Counter.mk 5 true 3).clone.add 7).add (-7)).get = (Counter.mk 5 true 3).get ∧
    ((Counter.mk 5 true 4).add 1).get = 0 :=
  counter_add_roundtrip (Counter.mk 5 true 3) 7 rfl (by decide) (by decide)

/-- C3: at the last snap index (count ≥ 1), in non-loop mode canScrollNext
is false and scrollNext leaves the selected snap unchanged; in loop mode
scrollNext advances the selection to 0, and canScrollNext is true whenever
there is more than one snap. -/
theorem scrollNext_last_index (st : CarouselState) (n : ℕ)
    (ha : st.activated = true) (hn : 0 < n)
    (hc : st.engine.index.count = n) (hv : st.engine.index.value = (n : ℤ) - 1) :
    (st.engine.index.loop = false →
      canScrollNext st = false ∧
      selectedScrollSnap (scrollNext st) = selectedScrollSnap st) ∧
    (st.engine.index.loop = true →
      selectedScrollSnap (scrollNext st) = 0 ∧
      (1 < n → canScrollNext st = true)) := by
  constructor
  · intro hl
    have hnext : (st.engine.index.clone.add 1).value = (n : ℤ) - 1 := by
      simp only [Counter.clone, Counter.add, normalizeIndex, hl, hc, hv,
        Bool.false_eq_true, if_false]
      omega
    constructor
    · simp only [canScrollNext, Counter.get, selectedScrollSnap, hnext, hv,
        decide_eq_false_iff_not, ne_eq, not_not]
    · simp only [scrollNext, scrollTo, ha, if_true, selectedScrollSnap,
        engineScrollToIndex, Counter.set, Counter.get, hnext, normalizeIndex, hl, hc,
        Bool.false_eq_true, if_false]
      omega
  · intro hl
    have hmod : ((n : ℤ) - 1 + 1) % (n : ℤ) = 0 := by
      have he : ((n : ℤ) - 1 + 1) = (n : ℤ) := by ring
      rw [he, Int.emod_self]
    have hnext : (st.engine.index.clone.add 1).value = 0 := by
      simp only [Counter.clone, Counter.add, normalizeIndex, hl, hc, hv, if_true, hmod]
    constructor
    · simp only [scrollNext, scrollTo, ha, if_true, selectedScrollSnap,
        engineScrollToIndex, Counter.set, Counter.get, hnext, normalizeIndex, hl, hc,
        if_true, Int.zero_emod]
    · intro h1
      simp only [canScrollNext, Counter.get, selectedScrollSnap, hnext, hv,
        decide_eq_true_eq, ne_eq]
      omega

/-- Witness for `scrollNext_last_index`: an activated carousel with three
snaps, non-loop, selected index 2. -/
theorem scrollNext_last_index_witness :
    (0 : ℕ) < 3 ∧
    ((stC3.engine.index.loop = false →
        canScrollNext stC3 = false ∧
        selectedScrollSnap (scrollNext stC3) = selectedScrollSnap stC3) ∧
      (stC3.engine.index.loop = true →
        selectedScrollSnap (scrollNext stC3) = 0 ∧
        (1 < 3 → canScrollNext stC3 = true))) :=
  ⟨by decide, scrollNext_last_index stC3 3 rfl (by decide) rfl rfl⟩

/-- C6: with N equal slides of size w (N ≥ 1) and a container of size W,
canLoop is false exactly when N*w < W + w, true otherwise, and the equality
boundary N*w = W + w resolves to true. -/
theorem canLoop_feasibility (N : ℕ) (w W : ℚ) (hN : 0 < N) :
    (canLoop (List.replicate N w) W = false ↔ (N : ℚ) * w < W + w) ∧
    ((N : ℚ) * w = W + w → canLoop (List.replicate N w) W = true) := by
  obtain ⟨m, rfl⟩ := Nat.exists_eq_succ_of_ne_zero hN.ne'
  have hsum : (List.replicate (m + 1) w).sum = ((m : ℚ) + 1) * w := by
    rw [List.sum_replicate, nsmul_eq_mul]
    push_cast
    ring
  have hhead : (List.replicate (m + 1) w).headD 0 = w := rfl
  constructor
  · rw [canLoop, hsum, hhead, decide_eq_false_iff_not, not_le]
    push_cast
    constructor <;> intro h <;> linarith
  · intro h
    rw [canLoop, hsum, hhead, decide_eq_true_eq]
    push_cast at h ⊢
    linarith

/-- Witness for `canLoop_feasibility`: three slides of size 2. -/
theorem canLoop_feasibility_witness :
    ((canLoop (List.replicate 3 2) 5 = false ↔ ((3 : ℕ) : ℚ) * 2 < 5 + 2) ∧
      (((3 : ℕ) : ℚ) * 2 = 5 + 2 → canLoop (List.replicate 3 2) 5 = true)) :=
  canLoop_feasibility 3 2 5 (by decide)

/-- C7: when the root element is missing, or no descendant matches the
container selector, activation fails with the corresponding error before
any engine is constructed, for every prior state and partial options. -/
theorem activate_missing_dom (w : DomWorld) (st : CarouselState) (p : PartialOptions)
    (h : w.hasRoot = false ∨ w.hasContainer = false) :
    activate w st p =
      .error (if w.hasRoot then "Missing container node" else "Missing root node") := by
  rcases h with h | h
  · simp [activate, activateAux, storeElements, h]
  · cases hr : w.hasRoot
    · simp [activate, activateAux, storeElements, hr]
    · simp [activate, activateAux, storeElements, hr, h]

/-- Witness for `activate_missing_dom`: a root with no matching container. -/
theorem activate_missing_dom_witness :
    activate (DomWorld.mk true false [] 1) stC7 { } =
      .error (if (DomWorld.mk true false [] 1).hasRoot
              then "Missing container node" else "Missing root node") :=
  activate_missing_dom (DomWorld.mk true false [] 1) stC7 { } (Or.inr rfl)

/-- jsIndexOf never returns a value below -1. -/
lemma jsIndexOf_ge_neg_one (xs : List ℕ) (x : ℕ) : -1 ≤ jsIndexOf xs x := by
  induction xs with
  | nil => simp [jsIndexOf]
  | cons a as ih =>
    by_cases h : a = x
    · simp [jsIndexOf, h]
    · by_cases hr : jsIndexOf as x = -1
      · simp [jsIndexOf, h, hr]
      · simp only [jsIndexOf, h, if_false, hr]
        omega

/-- jsIndexOf returns -1 exactly on the absent elements. -/
lemma jsIndexOf_eq_neg_one_iff (xs : List ℕ) (x : ℕ) :
    jsIndexOf xs x = -1 ↔ x ∉ xs := by
  induction xs with
  | nil => simp [jsIndexOf]
  | cons a as ih =>
    by_cases h : a = x
    · simp [jsIndexOf, h]
    · by_cases hr : jsIndexOf as x = -1
      · simp [jsIndexOf, h, hr, ih.mp hr, Ne.symm h]
      · have := jsIndexOf_ge_neg_one as x
        simp only [jsIndexOf, h, if_false, hr, List.mem_cons]
        constructor
        · intro he; omega
        · intro he
          exact absurd (ih.mpr fun hm => he (Or.inr hm)) hr

/-- Membership in slidesNotInView is exactly membership in the slide index
list minus membership in the in-view list. -/
lemma mem_slidesNotInView (idxs inView : List ℕ) (i : ℕ) :
    i ∈ slidesNotInView idxs inView ↔ i ∈ idxs ∧ i ∉ inView := by
  simp [slidesNotInView, List.mem_filter, jsIndexOf_eq_neg_one_iff]

/-- C9: for the result `inView` of the engine's slidesInView check,
slidesNotInView of the engine's slide indexes is disjoint from `inView`, and
— provided `inView` draws only from the slide indexes — every slide index
lands in exactly one of the two lists. -/
theorem slidesNotInView_partition (e : Engine) (inView : List ℕ)
    (_hsub : ∀ i ∈ inView, i ∈ slideIndexes e) :
    (∀ i, ¬(i ∈ inView ∧ i ∈ slidesNotInView (slideIndexes e) inView)) ∧
    (∀ i ∈ slideIndexes e,
      (i ∈ inView ∧ i ∉ slidesNotInView (slideIndexes e) inView) ∨
      (i ∉ inView ∧ i ∈ slidesNotInView (slideIndexes e) inView)) ∧
    (∀ i ∈ slidesNotInView (slideIndexes e) inView, i ∈ slideIndexes e) := by
  refine ⟨fun i ⟨hi, hn⟩ => ?_, fun i hi => ?_, fun i hi => ?_⟩
  · exact ((mem_slidesNotInView _ _ _).mp hn).2 hi
  · by_cases h : i ∈ inView
    · exact Or.inl ⟨h, fun hn => ((mem_slidesNotInView _ _ _).mp hn).2 h⟩
    · exact Or.inr ⟨h, (mem_slidesNotInView _ _ _).mpr ⟨hi, h⟩⟩
  · exact ((mem_slidesNotInView _ _ _).mp hi).1

/-- Witness for `slidesNotInView_partition`: four slides with indexes 1 and
2 in view. -/
theorem slidesNotInView_partition_witness :
    ((∀ i, ¬(i ∈ [1, 2] ∧ i ∈ slidesNotInView (slideIndexes engC9) [1, 2])) ∧
      (∀ i ∈ slideIndexes engC9,
        (i ∈ [1, 2] ∧ i ∉ slidesNotInView (slideIndexes engC9) [1, 2]) ∨
        (i ∉ [1, 2] ∧ i ∈ slidesNotInView (slideIndexes engC9) [1, 2])) ∧
      (∀ i ∈ slidesNotInView (slideIndexes engC9) [1, 2], i ∈ slideIndexes engC9)) :=
  slidesNotInView_partition engC9 [1, 2] (by decide)

/-- Folding pointer moves never changes the recorded gesture start. -/
lemma foldl_pointerMove_startPos (moves : List ℚ) (st : DragState) :
    (moves.foldl pointerMove st).startPos = st.startPos := by
  induction moves generalizing st with
  | nil => rfl
  | cons m ms ih => simp [List.foldl_cons, ih, pointerMove]

/-- After folding pointer moves, the drag latch is set exactly when some
sampled position reached the click threshold away from the start. -/
lemma foldl_pointerMove_exceeded (moves : List ℚ) (st : DragState) :
    (moves.foldl pointerMove st).exceeded =
      (st.exceeded || moves.any fun p => decide (dragThreshold ≤ |p - st.startPos|)) := by
  induction moves generalizing st with
  | nil => simp
  | cons m ms ih =>
    simp [List.foldl_cons, ih, pointerMove, List.any_cons, Bool.or_assoc]

/-- C4: for every completed gesture, clickAllowed is true exactly when every
sampled displacement from the start stays below the click threshold, and any
gesture whose displacement reaches or exceeds the threshold leaves
clickAllowed false. -/
theorem clickAllowed_iff_below_threshold (start : ℚ) (moves : List ℚ) :
    (clickAllowed (runGesture start moves) = true ↔
      ∀ p ∈ moves, |p - start| < dragThreshold) ∧
    (∀ p ∈ moves, dragThreshold ≤ |p - start| →
      clickAllowed (runGesture start moves) = false) := by
  have h1 : clickAllowed (runGesture start moves)
      = !(moves.any fun p => decide (dragThreshold ≤ |p - start|)) := by
    simp [clickAllowed, runGesture, pointerUp, foldl_pointerMove_exceeded,
      foldl_pointerMove_startPos, pointerDown]
  constructor
  · rw [h1]
    simp [not_le]
  · intro q hq hthr
    rw [h1]
    simp only [Bool.not_eq_false', List.any_eq_true, decide_eq_true_eq]
    exact ⟨q, hq, hthr⟩

/-- C10: the first destroy on an activated carousel deactivates and emits
'destroy' exactly once; afterwards destroy, reInit and resize are no-ops
that change no state and emit nothing. -/
theorem destroy_gates_lifecycle (st : CarouselState) (w w' : DomWorld) (p : PartialOptions)
    (ha : st.activated = true) :
    (destroy st).eventLog = st.eventLog ++ [EmblaEvent.destroy] ∧
    (destroy st).activated = false ∧
    (destroy st).dragEventsOn = false ∧
    (destroy st).resizeListenerOn = false ∧
    destroy (destroy st) = destroy st ∧
    reActivate w (destroy st) p = .ok (destroy st) ∧
    resize w' (destroy st) = .ok (destroy st) := by
  have hact : (destroy st).activated = false := by simp [destroy, ha, deActivate]
  refine ⟨?_, hact, ?_, ?_, ?_, ?_, ?_⟩
  · simp [destroy, ha, deActivate]
  · simp [destroy, ha, deActivate]
  · simp [destroy, ha, deActivate]
  · simp [destroy, deActivate, ha]
  · simp [reActivate, hact]
  · simp [resize, hact]

/-- Witness for `destroy_gates_lifecycle`: the concrete activated state. -/
theorem destroy_gates_lifecycle_witness :
    (destroy stC10).eventLog = stC10.eventLog ++ [EmblaEvent.destroy] ∧
    (destroy stC10).activated = false ∧
    (destroy stC10).dragEventsOn = false ∧
    (destroy stC10).resizeListenerOn = false ∧
    destroy (destroy stC10) = destroy stC10 ∧
    reActivate (DomWorld.mk true true [1, 1] 1) (destroy stC10) { } = .ok (destroy stC10) ∧
    resize (DomWorld.mk true true [1, 1] 2) (destroy stC10) = .ok (destroy stC10) :=
  destroy_gates_lifecycle stC10 (DomWorld.mk true true [1, 1] 1)
    (DomWorld.mk true true [1, 1] 2) { } rfl

/-- C2: requesting activation with loop enabled while the loop geometry is
infeasible succeeds without an error: activate deactivates and re-activates
itself with loop disabled, so the result state has loop off. -/
theorem activate_infeasible_loop_fallback (w : DomWorld) (st : CarouselState)
    (p : PartialOptions) (hr : w.hasRoot = true) (hc : w.hasContainer = true)
    (hp : p.loop = some true) (hcl : canLoop w.slideSizes w.viewport = false) :
    ∃ st', activate w st p = .ok st' ∧ st'.options.loop = false := by
  by_cases hA : st.activated = true
  · simp [activate, activateAux, storeElements, hr, hc, mergeOptions, hp, hcl,
      deActivate, hA]
  · simp [activate, activateAux, storeElements, hr, hc, mergeOptions, hp, hcl,
      deActivate, hA]

/-- Witness for `activate_infeasible_loop_fallback`: two unit slides in a
viewport of size 5, loop requested. -/
theorem activate_infeasible_loop_fallback_witness :
    ∃ st', activate (DomWorld.mk true true [1, 1] 5) stC2 { loop := some true } = .ok st' ∧
      st'.options.loop = false :=
  activate_infeasible_loop_fallback (DomWorld.mk true true [1, 1] 5) stC2
    { loop := some true } rfl rfl rfl (by norm_num [canLoop])

/-- C8: whenever the caller's partial options leave startIndex unset and the
DOM geometry keeps the selected index valid, reInit captures the selected
snap index, passes it to the rebuilt engine as startIndex, and the selected
snap index is unchanged afterwards. -/
theorem reInit_preserves_selected (w : DomWorld) (st : CarouselState) (p : PartialOptions)
    (ha : st.activated = true) (hp : p.startIndex = none)
    (hr : w.hasRoot = true) (hc : w.hasContainer = true)
    (h0 : 0 ≤ selectedScrollSnap st)
    (h1 : selectedScrollSnap st < (w.slideSizes.length : ℤ)) :
    ∃ st', reActivate w st p = .ok st' ∧
      selectedScrollSnap st' = selectedScrollSnap st := by
  have hnorm : ∀ lp : Bool,
      normalizeIndex w.slideSizes.length lp st.engine.index.value = st.engine.index.value :=
    fun _ => normalizeIndex_eq_self h0 h1
  by_cases hguard : (p.loop.getD st.options.loop) = true ∧
      canLoop w.slideSizes w.viewport = false
  · obtain ⟨hg1, hg2⟩ := hguard
    simp [reActivate, ha, hp, activate, activateAux, storeElements, hr, hc,
      mergeOptions, hg1, hg2, deActivate, mkEngine, selectedScrollSnap, Counter.get,
      hnorm]
  · rw [Classical.not_and_iff_or_not_not] at hguard
    rcases hguard with hg | hg
    · have hg1 : p.loop.getD st.options.loop = false := by
        cases h : p.loop.getD st.options.loop
        · rfl
        · exact absurd h hg
      simp [reActivate, ha, hp, activate, activateAux, storeElements, hr, hc,
        mergeOptions, hg1, deActivate, mkEngine, selectedScrollSnap, Counter.get,
        hnorm]
    · have hg2 : canLoop w.slideSizes w.viewport = true := by
        cases h : canLoop w.slideSizes w.viewport
        · exact absurd h hg
        · rfl
      simp [reActivate, ha, hp, activate, activateAux, storeElements, hr, hc,
        mergeOptions, hg2, deActivate, mkEngine, selectedScrollSnap, Counter.get,
        hnorm]

/-- Witness for `reInit_preserves_selected`: reInit with empty partial
options on a five-slide loop carousel selected at index 3. -/
theorem reInit_preserves_selected_witness :
    ∃ st', reActivate (DomWorld.mk true true [1, 1, 1, 1, 1] 2) stC8 { } = .ok st' ∧
      selectedScrollSnap st' = selectedScrollSnap stC8 :=
  reInit_preserves_selected (DomWorld.mk true true [1, 1, 1, 1, 1] 2) stC8 { }
    rfl rfl rfl rfl (by decide) (by decide)

/-- seek never changes the target. -/
lemma seek_target (s : SBState) : (seek s).target = s.target := rfl

/-- The velocity after one base-profile seek. -/
lemma seek_velocity (s : SBState) :
    (seek s).velocity = s.velocity / 2 + dist s / 20 := by
  show (s.velocity + (s.target - s.location) / baseMass) * (1 - baseFriction) = _
  rw [baseMass, baseFriction, dist]
  ring

/-- The remaining distance after one base-profile seek. -/
lemma dist_seek (s : SBState) :
    dist (seek s) = (19 / 20) * dist s - s.velocity / 2 := by
  show s.target -
      (s.location + (s.velocity + (s.target - s.location) / baseMass) * (1 - baseFriction)) = _
  rw [baseMass, baseFriction, dist]
  ring

/-- A state at rest satisfies the overdamping invariant. -/
lemma sbInv_zero_velocity (s : SBState) (h : s.velocity = 0) : SBInv s := by
  rcases le_total 0 (dist s) with hd | hd
  · exact Or.inl ⟨hd, by rw [h], by rw [h]; linarith⟩
  · exact Or.inr ⟨hd, by rw [h], by rw [h]; linarith⟩

/-- seek preserves the overdamping invariant. -/
lemma sbInv_seek {s : SBState} (h : SBInv s) : SBInv (seek s) := by
  rcases h with ⟨hd, hv, hvd⟩ | ⟨hd, hv, hvd⟩
  · exact Or.inl ⟨by rw [dist_seek]; linarith, by rw [seek_velocity]; linarith,
      by rw [dist_seek, seek_velocity]; linarith⟩
  · exact Or.inr ⟨by rw [dist_seek]; linarith, by rw [seek_velocity]; linarith,
      by rw [dist_seek, seek_velocity]; linarith⟩

/-- Under the invariant, each seek contracts the distance by at least the
factor 19/20. -/
lemma abs_dist_seek {s : SBState} (h : SBInv s) :
    |dist (seek s)| ≤ (19 / 20) * |dist s| := by
  rcases h with ⟨hd, hv, hvd⟩ | ⟨hd, hv, hvd⟩
  · rw [abs_of_nonneg hd, dist_seek,
      abs_of_nonneg (by linarith : (0 : ℚ) ≤ (19 / 20) * dist s - s.velocity / 2)]
    linarith
  · rw [abs_of_nonpos hd, dist_seek,
      abs_of_nonpos (by linarith : (19 / 20) * dist s - s.velocity / 2 ≤ 0)]
    linarith

/-- Under the invariant, the post-seek velocity is at most 3/10 of the
pre-seek distance in magnitude. -/
lemma abs_velocity_seek {s : SBState} (h : SBInv s) :
    |(seek s).velocity| ≤ (3 / 10) * |dist s| := by
  rcases h with ⟨hd, hv, hvd⟩ | ⟨hd, hv, hvd⟩
  · rw [seek_velocity, abs_of_nonneg hd,
      abs_of_nonneg (by linarith : (0 : ℚ) ≤ s.velocity / 2 + dist s / 20)]
    linarith
  · rw [seek_velocity, abs_of_nonpos hd,
      abs_of_nonpos (by linarith : s.velocity / 2 + dist s / 20 ≤ 0)]
    linarith

/-- The invariant persists through every number of seek iterations. -/
lemma sbInv_iterate {s : SBState} (h : SBInv s) (n : ℕ) : SBInv (seek^[n] s) := by
  induction n with
  | zero => simpa using h
  | succ k ih => rw [Function.iterate_succ_apply']; exact sbInv_seek ih

/-- Iterated seeks never change the target. -/
lemma iterate_seek_target (s : SBState) (n : ℕ) : (seek^[n] s).target = s.target := by
  induction n with
  | zero => rfl
  | succ k ih => rw [Function.iterate_succ_apply', seek_target, ih]

/-- Geometric decay of the distance along the iteration. -/
lemma abs_dist_iterate {s : SBState} (h : SBInv s) (n : ℕ) :
    |dist (seek^[n] s)| ≤ (19 / 20) ^ n * |dist s| := by
  induction n with
  | zero => simp
  | succ k ih =>
    rw [Function.iterate_succ_apply']
    calc |dist (seek (seek^[k] s))| ≤ (19 / 20) * |dist (seek^[k] s)| :=
          abs_dist_seek (sbInv_iterate h k)
      _ ≤ (19 / 20) * ((19 / 20) ^ k * |dist s|) :=
          mul_le_mul_of_nonneg_left ih (by norm_num)
      _ = (19 / 20) ^ (k + 1) * |dist s| := by ring

/-- Elementary bound on the contraction factor via Bernoulli's inequality. -/
lemma pow_nineteen_twentieths_le (n : ℕ) :
    ((19 : ℚ) / 20) ^ n ≤ 19 / (19 + n) := by
  have hber : 1 + (n : ℚ) * (1 / 19) ≤ (1 + 1 / 19) ^ n :=
    one_add_mul_le_pow (by norm_num) n
  have hx : ((19 : ℚ) + n) / 19 ≤ (20 / 19) ^ n := by
    calc ((19 : ℚ) + n) / 19 = 1 + n * (1 / 19) := by ring
      _ ≤ (1 + 1 / 19) ^ n := hber
      _ = (20 / 19) ^ n := by norm_num
  have hbase : ((19 : ℚ) / 20) = ((20 : ℚ) / 19)⁻¹ := by norm_num
  have htgt : (19 : ℚ) / (19 + n) = (((19 : ℚ) + n) / 19)⁻¹ := by
    rw [inv_div]
  rw [hbase, inv_pow, htgt]
  exact inv_anti₀ (by positivity) hx

/-- If the velocity drops below the settle threshold within the fuel, the
animation loop stops and snaps location exactly to the (unchanged) target. -/
lemma animate_of_settles :
    ∀ (fuel : ℕ) (s : SBState),
      (∃ k, k < fuel ∧ |(seek^[k + 1] s).velocity| < settleThreshold) →
      ∃ s', animate fuel s = some s' ∧ s'.location = s.target ∧ s'.target = s.target := by
  intro fuel
  induction fuel with
  | zero =>
    rintro s ⟨k, hk, -⟩
    exact absurd hk (Nat.not_lt_zero k)
  | succ m ih =>
    rintro s ⟨k, hk, hv⟩
    by_cases hg : |(seek s).velocity| < settleThreshold
    · refine ⟨{ seek s with location := (seek s).target }, ?_, seek_target s, seek_target s⟩
      simp only [animate]
      rw [if_pos hg]
    · have hk0 : k ≠ 0 := by
        intro h0
        rw [h0] at hv
        simp only [Nat.zero_add, Function.iterate_one] at hv
        exact hg hv
      obtain ⟨k', rfl⟩ := Nat.exists_eq_succ_of_ne_zero hk0
      have hstep : seek^[k' + 1 + 1] s = seek^[k' + 1] (seek s) :=
        Function.iterate_succ_apply seek (k' + 1) s
      obtain ⟨s', h1, h2, h3⟩ :=
        ih (seek s) ⟨k', by omega, by rw [← hstep]; exact hv⟩
      refine ⟨s', ?_, ?_, ?_⟩
      · simp only [animate]
        rw [if_neg hg]
        exact h1
      · rw [h2, seek_target]
      · rw [h3, seek_target]

/-- C1: from any location/target pair with zero initial velocity, under the
base mass/friction profile each seek contracts the remaining distance by at
least the factor 19/20 (so |target - location| decreases monotonically
toward zero), and the animation loop terminates within finite fuel with
location snapped exactly to the target. -/
theorem scrollBody_convergence (loc tgt : ℚ) :
    (∀ n, |dist (seek^[n + 1] (SBState.mk loc tgt 0))| ≤
        (19 / 20) * |dist (seek^[n] (SBState.mk loc tgt 0))|) ∧
    ∃ fuel s', animate fuel (SBState.mk loc tgt 0) = some s' ∧
      s'.location = tgt ∧ s'.target = tgt := by
  have hinv0 : SBInv (SBState.mk loc tgt 0) := sbInv_zero_velocity _ rfl
  constructor
  · intro n
    rw [Function.iterate_succ_apply']
    exact abs_dist_seek (sbInv_iterate hinv0 n)
  · obtain ⟨k, hk⟩ := exists_nat_gt ((570 : ℚ) * |dist (SBState.mk loc tgt 0)|)
    have habs : (0 : ℚ) ≤ |dist (SBState.mk loc tgt 0)| := abs_nonneg _
    have hvb : |(seek^[k + 1] (SBState.mk loc tgt 0)).velocity| ≤
        (3 / 10) * ((19 / 20) ^ k * |dist (SBState.mk loc tgt 0)|) := by
      rw [Function.iterate_succ_apply']
      calc |(seek (seek^[k] (SBState.mk loc tgt 0))).velocity|
          ≤ (3 / 10) * |dist (seek^[k] (SBState.mk loc tgt 0))| :=
            abs_velocity_seek (sbInv_iterate hinv0 k)
        _ ≤ (3 / 10) * ((19 / 20) ^ k * |dist (SBState.mk loc tgt 0)|) :=
            mul_le_mul_of_nonneg_left (abs_dist_iterate hinv0 k) (by norm_num)
    have hpos : (0 : ℚ) < 19 + (k : ℚ) := by positivity
    have hsmall : (3 / 10 : ℚ) * ((19 / 20) ^ k * |dist (SBState.mk loc tgt 0)|) <
        settleThreshold := by
      have h1 : ((19 : ℚ) / 20) ^ k ≤ 19 / (19 + k) := pow_nineteen_twentieths_le k
      have h4 : (3 / 10 : ℚ) * ((19 / 20) ^ k * |dist (SBState.mk loc tgt 0)|) ≤
          (3 / 10) * (19 / (19 + k) * |dist (SBState.mk loc tgt 0)|) :=
        mul_le_mul_of_nonneg_left (mul_le_mul_of_nonneg_right h1 habs) (by norm_num)
      have heq : (3 / 10 : ℚ) * (19 / (19 + k) * |dist (SBState.mk loc tgt 0)|) =
          (57 / 10) * |dist (SBState.mk loc tgt 0)| / (19 + k) := by
        field_simp
        ring
      have h5 : (57 / 10 : ℚ) * |dist (SBState.mk loc tgt 0)| / (19 + k) < 1 / 100 := by
        rw [div_lt_iff₀ hpos]
        nlinarith
      rw [settleThreshold]
      calc (3 / 10 : ℚ) * ((19 / 20) ^ k * |dist (SBState.mk loc tgt 0)|) ≤
            (3 / 10) * (19 / (19 + k) * |dist (SBState.mk loc tgt 0)|) := h4
        _ = (57 / 10) * |dist (SBState.mk loc tgt 0)| / (19 + k) := heq
        _ < 1 / 100 := h5
    obtain ⟨s', ha, hl, ht⟩ :=
      animate_of_settles (k + 1) (SBState.mk loc tgt 0)
        ⟨k, Nat.lt_succ_self k, lt_of_le_of_lt hvb hsmall⟩
    exact ⟨k + 1, s', ha, hl, ht⟩

end Embla
